import Mathlib

/-!
Verification of the YTMDesktop v2 integration core against its
natural-language specification.

The development shallowly embeds the two components the claims are about:

* the request layer and session manager of
  `custom_components/ytmd_v2/api_client.py` (`YTMDClient`), modelled as a
  pure state machine `ClientState` with one Lean function per Python
  method, and

* the pairing poll loop of `custom_components/ytmd_v2/config_flow.py`
  (`YTMDConfigFlow._async_poll_for_token`), modelled as a bounded
  recursion over a stream of poll outcomes.

HTTP and socket.io traffic is abstracted into explicit environment values
(`HttpOutcome`, `ConnectEnv`, `PollStep`): each value records what the
network produced, and the Lean functions reproduce, branch for branch,
what the Python code does with it.  asyncio task handles are modelled as
records with a `done` flag; `Task.cancel()` marks the task done, after
which the task never resumes past its next suspension point.

A dispatch fact of python-socketio 5.x shapes the embedding: the
`connect`, `disconnect` and `connect_error` handlers in `async_connect`
are registered with `@self._sio.event`, which binds them to the default
namespace `'/'`, while the client connects exclusively to the custom
namespace `f"{API_BASE}/realtime"`.  python-socketio resolves handlers by
exact namespace (with only a `'*'` catch-all fallback), so these three
handlers are never dispatched; only the `state-update` handler, which is
registered on the custom namespace, ever runs.  The embedding therefore
gives those three registrations no effect: the only state transitions of
`async_connect`/`async_disconnect` are the ones written inline in their
bodies.
-/

namespace YTMD

/-! ## Request layer (`api_client.py`) -/

/-- A state snapshot / JSON document body, as an association list.
The Python code treats these opaquely (full replacement, field lookup). -/
abbrev Snapshot := List (String × String)

/-- The exception hierarchy of `api_client.py`: `YTMDAuthError` and
`YTMDConnectionError` (both subclasses of `YTMDError`).  There is no
further subdivision in the source. -/
inductive YTMDError where
  | YTMDAuthError (msg : String)
  | YTMDConnectionError (msg : String)
deriving DecidableEq

/-- Modelled from the spec: `const.py` is not part of the provided
sources; the prefix only feeds URL strings used in error messages. -/
def API_BASE : String := "/api/v1"

/-- `http://{host}:{port}{API_BASE}` (`YTMDClient.base_url`). -/
def base_url (host : String) (port : Nat) : String :=
  "http://" ++ host ++ ":" ++ toString port ++ API_BASE

/-- `YTMDClient._handle_request_error`: 401 raises `YTMDAuthError`;
429 raises `YTMDConnectionError` with a dedicated message; any other
status `>= 400` raises `YTMDConnectionError`; otherwise nothing. -/
def handle_request_error (status : Nat) (url : String) : Option YTMDError :=
  if status = 401 then
    some (.YTMDAuthError ("Authorization failed for " ++ url ++ ". Check token."))
  else if status = 429 then
    some (.YTMDConnectionError
      ("Request failed to " ++ url ++ " with status 429 (Too Many Requests)."))
  else if 400 ≤ status then
    some (.YTMDConnectionError
      ("Request failed to " ++ url ++ " with status " ++ toString status ++ "."))
  else
    none

/-- What the network produced for one HTTP call: either a response with a
status code and (already parsed) JSON body, or a transport failure
(`aiohttp.ClientConnectorError` / `asyncio.TimeoutError`) with the
exception text. -/
inductive HttpOutcome where
  | response (status : Nat) (body : Snapshot)
  | transportFail (msg : String)
deriving DecidableEq

/-- The `YTMDConnectionError` message used by every operation's
transport-failure handler: `f"Connection error to {url}: {exc}"`. -/
def connError (url msg : String) : YTMDError :=
  .YTMDConnectionError ("Connection error to " ++ url ++ ": " ++ msg)

/-- `YTMDClient.async_request_code` (POST `/auth/requestcode`). -/
def async_request_code (host : String) (port : Nat) (out : HttpOutcome) :
    Except YTMDError Snapshot :=
  let url := base_url host port ++ "/auth/requestcode"
  match out with
  | .transportFail m => .error (connError url m)
  | .response s body =>
    match handle_request_error s url with
    | some e => .error e
    | none => .ok body

/-- `YTMDClient.async_request_token` (POST `/auth/request`), the
pairing-code exchange call. -/
def async_request_token (host : String) (port : Nat) (out : HttpOutcome) :
    Except YTMDError Snapshot :=
  let url := base_url host port ++ "/auth/request"
  match out with
  | .transportFail m => .error (connError url m)
  | .response s body =>
    match handle_request_error s url with
    | some e => .error e
    | none => .ok body

/-- `YTMDClient.async_get_state` (GET `/state`). -/
def async_get_state (host : String) (port : Nat) (out : HttpOutcome) :
    Except YTMDError Snapshot :=
  let url := base_url host port ++ "/state"
  match out with
  | .transportFail m => .error (connError url m)
  | .response s body =>
    match handle_request_error s url with
    | some e => .error e
    | none => .ok body

/-- `YTMDClient.async_post_command` (POST `/command`): a 204 response
yields the synthetic body `{"status": "success"}`. -/
def async_post_command (host : String) (port : Nat) (out : HttpOutcome) :
    Except YTMDError Snapshot :=
  let url := base_url host port ++ "/command"
  match out with
  | .transportFail m => .error (connError url m)
  | .response s body =>
    match handle_request_error s url with
    | some e => .error e
    | none => if s = 204 then .ok [("status", "success")] else .ok body

/-! ## Pairing poll loop (`config_flow.py`) -/

/-- `APPROVAL_TIMEOUT = 60` (seconds). -/
def APPROVAL_TIMEOUT : Nat := 60

/-- `RETRY_INTERVAL = 3` (seconds). -/
def RETRY_INTERVAL : Nat := 3

/-- What one `async_request_token` poll produced, as seen by
`_async_poll_for_token`'s `try`/`except` blocks: a returned body, a raised
`YTMDConnectionError` (transport failure, 429, or any other non-auth
status error), a raised `YTMDAuthError` (401), or any other exception. -/
inductive PollStep where
  | ok (body : Snapshot)
  | connErr
  | authErr
  | otherErr
deriving DecidableEq

/-- How the polling task ends: `return token` on a truthy token, or the
`AbortFlow("auth_timeout")` raised when the `while` loop is exhausted. -/
inductive PollResult where
  | success (token : String)
  | timeout
deriving DecidableEq

/-- `token = token_response.get("token"); if token:` — the token must be
present and truthy (a non-empty string). -/
def getToken (body : Snapshot) : Option String :=
  match body.lookup "token" with
  | some t => if t = "" then none else some t
  | none => none

/-- The `while elapsed < APPROVAL_TIMEOUT` loop of
`_async_poll_for_token`, over the stream `steps` of poll outcomes.
Returns the result together with the number of polls performed.
`fuel` is a structural-recursion bound: one unit is consumed per
iteration while `elapsed` grows by `RETRY_INTERVAL`, so any
`fuel ≥ APPROVAL_TIMEOUT / RETRY_INTERVAL` makes the `fuel = 0` branch
unreachable (`poll_go_elapsed` below); the loop's own exit condition is
the faithful `elapsed < APPROVAL_TIMEOUT` test. -/
def poll_go (steps : Nat → PollStep) : Nat → Nat → Nat → PollResult × Nat
  | 0, _, _ => (.timeout, 0)
  | fuel + 1, i, elapsed =>
    if elapsed < APPROVAL_TIMEOUT then
      match steps i with
      | .ok body =>
        match getToken body with
        | some t => (.success t, 1)
        | none =>
          let r := poll_go steps fuel (i + 1) (elapsed + RETRY_INTERVAL)
          (r.1, r.2 + 1)
      | .connErr =>
        -- except YTMDConnectionError: log at debug, keep polling
        let r := poll_go steps fuel (i + 1) (elapsed + RETRY_INTERVAL)
        (r.1, r.2 + 1)
      | .authErr =>
        -- a YTMDAuthError is only matched by `except Exception`: keep polling
        let r := poll_go steps fuel (i + 1) (elapsed + RETRY_INTERVAL)
        (r.1, r.2 + 1)
      | .otherErr =>
        -- except Exception: log at debug, keep polling
        let r := poll_go steps fuel (i + 1) (elapsed + RETRY_INTERVAL)
        (r.1, r.2 + 1)
    else (.timeout, 0)

/-- `_async_poll_for_token`: the loop starts at `elapsed = 0`. -/
def poll_for_token (steps : Nat → PollStep) : PollResult × Nat :=
  poll_go steps APPROVAL_TIMEOUT 0 0

/-- The fuel bound is immaterial: whenever `elapsed` has already reached
the timeout the loop exits regardless of remaining fuel. -/
theorem poll_go_elapsed (steps : Nat → PollStep) (fuel i elapsed : Nat)
    (h : APPROVAL_TIMEOUT ≤ elapsed) :
    poll_go steps fuel i elapsed = (.timeout, 0) := by
  cases fuel with
  | zero => rfl
  | succ f =>
    simp only [poll_go, APPROVAL_TIMEOUT] at h ⊢
    rw [if_neg (by omega)]

/-! ## Session manager (`YTMDClient`)

The client's mutable attributes become the fields of `ClientState`.
asyncio reconnect tasks (`self._reconnect_task = asyncio.create_task(...)`)
are modelled as `RTask` records collected in `tasks`; `cur` is the
`self._reconnect_task` reference (the id of the most recently created
task) and `nextId` generates fresh task ids.  `Task.cancel()` marks the
task done: a cancelled asyncio task receives `CancelledError` at its next
suspension point and never resumes its loop body.

Listener callbacks are identified by numbers; `deliveries` logs, in
order, every `(callback, payload)` pair handed to
`hass.loop.call_soon_threadsafe` by `_push_state_to_listeners`. -/

/-- An asyncio task handle for `_reconnect_loop`. -/
structure RTask where
  id : Nat
  done : Bool
deriving DecidableEq

/-- The mutable state of a `YTMDClient` instance. -/
structure ClientState where
  /-- `self._sio is not None` -/
  sio : Bool
  /-- `self._sio.connected` (`False` whenever `sio` is absent) -/
  sioConnected : Bool
  /-- `self._connected` -/
  connected : Bool
  /-- `self._session is not None and not self._session.closed` -/
  sessionOpen : Bool
  /-- `self._state` -/
  snapshot : Snapshot
  /-- `self._listeners` -/
  listeners : List Nat
  /-- every reconnect task created so far -/
  tasks : List RTask
  /-- `self._reconnect_task` (id of the most recently created task) -/
  cur : Option Nat
  /-- fresh-id source for task handles -/
  nextId : Nat
  /-- `self._reconnect_delay` -/
  reconnectDelay : Nat
  /-- ordered log of listener deliveries -/
  deliveries : List (Nat × Snapshot)
deriving DecidableEq

/-- `YTMDClient.__init__`: no session, no socket, empty snapshot, no
listeners, no reconnect task, delay 1. -/
def initState : ClientState :=
  { sio := false, sioConnected := false, connected := false
    sessionOpen := false, snapshot := [], listeners := []
    tasks := [], cur := none, nextId := 0
    reconnectDelay := 1, deliveries := [] }

/-- `if self._reconnect_task and not self._reconnect_task.done():
self._reconnect_task.cancel()` — the referenced task is marked done. -/
def cancelCur (st : ClientState) : ClientState :=
  { st with tasks := st.tasks.map fun t =>
      if st.cur = some t.id then { t with done := true } else t }

/-- `self._reconnect_task = asyncio.create_task(self._reconnect_loop())` -/
def createTask (st : ClientState) : ClientState :=
  { st with tasks := st.tasks ++ [⟨st.nextId, false⟩]
            cur := some st.nextId, nextId := st.nextId + 1 }

/-- `YTMDClient._schedule_reconnect`: a no-op while connected; otherwise
cancel the pending task (if any) and create a new one. -/
def schedule_reconnect (st : ClientState) : ClientState :=
  if st.connected = true then st else createTask (cancelCur st)

/-- `YTMDClient._push_state_to_listeners`: hand `data` to every currently
registered listener via the event loop. -/
def push_state_to_listeners (st : ClientState) (data : Snapshot) : ClientState :=
  { st with deliveries := st.deliveries ++ st.listeners.map fun l => (l, data) }

/-- `YTMDClient._force_state_update_to_listeners(use_http_if_available=True)`:
try an HTTP state fetch (`fetch = some s` on success, `none` when the
fetch raised); on success replace the cached snapshot, on failure keep
it; then push the cached snapshot to all listeners. -/
def force_state_update (st : ClientState) (fetch : Option Snapshot) : ClientState :=
  let st' := match fetch with
    | some s => { st with snapshot := s }
    | none => st
  push_state_to_listeners st' st'.snapshot

/-- `YTMDClient._notify_listeners_of_disconnect`: clear the snapshot and
push the empty snapshot. -/
def notify_listeners_of_disconnect (st : ClientState) : ClientState :=
  push_state_to_listeners { st with snapshot := [] } []

/-- What the network produced for one `async_connect` call: the result of
the pre-handshake HTTP state fetch (`some s` on success, `none` when the
fetch raised) and whether the socket.io handshake succeeded. -/
structure ConnectEnv where
  fetch : Option Snapshot
  sioOk : Bool
deriving DecidableEq

/-- `YTMDClient.async_connect`.  Returns the post-call state together
with the exception surfaced to the caller — which is `none` on every
path: a failed handshake is caught (`except socketio.exceptions.ConnectionError`
/ `except Exception`) and answered with `_schedule_reconnect()`.

The `connect`/`connect_error` handlers registered here are bound to
namespace `'/'` and never dispatched (see the module comment), so a
successful handshake performs only the inline success branch (set
`_connected`, cancel a pending reconnect; the backoff delay is *not*
reset and no post-handshake refetch happens), and a failed handshake
performs only the `except`-branch `_schedule_reconnect()`. -/
def async_connect (env : ConnectEnv) (st : ClientState) :
    ClientState × Option YTMDError :=
  if st.sio = true ∧ st.sioConnected = true then
    -- already connected: set the flag, cancel any pending reconnect, return
    (cancelCur { st with connected := true }, none)
  else
    let st1 := { st with sessionOpen := true }                 -- _ensure_session
    let st2 := { st1 with sio := false, sioConnected := false } -- drop stale client
    let st3 := { st2 with sio := true, sioConnected := false }  -- fresh AsyncClient
    let st4 := force_state_update st3 env.fetch                -- pre-handshake publish
    if env.sioOk = true then
      -- handshake succeeded: `if self._sio.connected:` sets `_connected`
      -- and cancels any pending reconnect
      (cancelCur { st4 with sioConnected := true, connected := true }, none)
    else
      -- handshake failed: the `except` branch schedules a reconnect
      (schedule_reconnect st4, none)

/-- A transport-level channel drop.  The `disconnect` handler is bound to
namespace `'/'` and never dispatched, so the only effect is the channel
becoming disconnected: no reconnect is scheduled and the snapshot is not
cleared. -/
def channel_drop (st : ClientState) : ClientState :=
  { st with sioConnected := false }

/-- The `state-update` socket.io event handler: replace the cached
snapshot and push it to all listeners. -/
def on_state_update (data : Snapshot) (st : ClientState) : ClientState :=
  push_state_to_listeners { st with snapshot := data } data

/-- `YTMDClient.add_listener`: register the callback unless already
present, then (via a scheduled task) push the cached snapshot to the
whole listener list. -/
def add_listener (cb : Nat) (st : ClientState) : ClientState :=
  if cb ∈ st.listeners then st
  else
    let st' := { st with listeners := st.listeners ++ [cb] }
    push_state_to_listeners st' st'.snapshot

/-- `YTMDClient.remove_listener`: remove the callback if present. -/
def remove_listener (cb : Nat) (st : ClientState) : ClientState :=
  if cb ∈ st.listeners then
    { st with listeners := st.listeners.erase cb }
  else st

/-- `YTMDClient.async_disconnect`: cancel a pending reconnect task,
disconnect the socket if connected, drop the socket, close the HTTP
session, clear `_connected`.  The `disconnect` event handler is bound to
namespace `'/'` and never dispatched during `sio.disconnect()`, so the
source's guards (`if self._sio`, `if self._sio.connected`,
`if self._session and not self._session.closed`) only decide which
library calls are made; every path ends in the same state, with no
reconnect scheduled. -/
def async_disconnect (st : ClientState) : ClientState :=
  { cancelCur st with
      sio := false, sioConnected := false, sessionOpen := false, connected := false }

/-- Is reconnect task `tid` still able to run? -/
def taskAlive (tid : Nat) (st : ClientState) : Bool :=
  st.tasks.any fun t => t.id == tid && !t.done

/-- One iteration of `YTMDClient._reconnect_loop`'s `while` body, as
executed by reconnect task `tid`: if already connected the loop exits;
otherwise the body runs `async_connect` (exceptions swallowed) and then
`await asyncio.sleep(delay)` followed by the doubling
`self._reconnect_delay = min(self._reconnect_delay * 2, 300)`.
If `async_connect` cancelled task `tid` itself, the sleep raises
`CancelledError` and the doubling line is never reached. -/
def reconnect_loop_iter (tid : Nat) (env : ConnectEnv) (st : ClientState) :
    ClientState :=
  if st.connected = true then st
  else if taskAlive tid (async_connect env st).1 = true then
    { (async_connect env st).1 with
        reconnectDelay := min ((async_connect env st).1.reconnectDelay * 2) 300 }
  else (async_connect env st).1

/-- Number of reconnect tasks that are still pending. -/
def pendingCount (st : ClientState) : Nat :=
  (st.tasks.filter fun t => !t.done).length

/-- Number of deliveries made to callback `cb` so far. -/
def deliveredCount (cb : Nat) (st : ClientState) : Nat :=
  (st.deliveries.filter fun p => p.1 == cb).length

/-- The states a `YTMDClient` can reach: the constructed state, followed
by any interleaving of API calls, socket events and reconnect-loop
iterations. -/
inductive Reach : ClientState → Prop where
  | init : Reach initState
  | connect (env : ConnectEnv) {st : ClientState} :
      Reach st → Reach (async_connect env st).1
  | disconnect {st : ClientState} : Reach st → Reach (async_disconnect st)
  | drop {st : ClientState} : Reach st → Reach (channel_drop st)
  | stateUpdate (d : Snapshot) {st : ClientState} :
      Reach st → Reach (on_state_update d st)
  | subscribe (cb : Nat) {st : ClientState} :
      Reach st → Reach (add_listener cb st)
  | unsubscribe (cb : Nat) {st : ClientState} :
      Reach st → Reach (remove_listener cb st)
  | loopIter (tid : Nat) (env : ConnectEnv) {st : ClientState} :
      Reach st → Reach (reconnect_loop_iter tid env st)

/-! ## Reconnect-task bookkeeping invariant -/

/-- Every not-yet-done task is the one `self._reconnect_task` refers to,
task ids are below the fresh-id source, and ids are pairwise distinct. -/
def Inv (st : ClientState) : Prop :=
  (∀ t ∈ st.tasks, t.done = false → st.cur = some t.id) ∧
  (∀ t ∈ st.tasks, t.id < st.nextId) ∧
  st.tasks.Pairwise (fun a b => a.id ≠ b.id)

theorem inv_congr {st st' : ClientState} (ht : st'.tasks = st.tasks)
    (hc : st'.cur = st.cur) (hn : st'.nextId = st.nextId) (h : Inv st) :
    Inv st' := by
  obtain ⟨h1, h2, h3⟩ := h
  refine ⟨?_, ?_, ht ▸ h3⟩
  · intro t m hd
    rw [hc]
    exact h1 t (ht ▸ m) hd
  · intro t m
    rw [hn]
    exact h2 t (ht ▸ m)

theorem pending_le_one {st : ClientState} (h : Inv st) : pendingCount st ≤ 1 := by
  obtain ⟨h1, _, h3⟩ := h
  unfold pendingCount
  match hl : st.tasks.filter (fun t => !t.done) with
  | [] => rw [hl]; simp
  | [a] => rw [hl]; simp
  | a :: b :: l =>
    exfalso
    have hp : (a :: b :: l).Pairwise (fun x y : RTask => x.id ≠ y.id) :=
      hl ▸ h3.sublist (List.filter_sublist st.tasks)
    have hab : a.id ≠ b.id := (List.pairwise_cons.mp hp).1 b (by simp)
    have ha : a ∈ st.tasks.filter (fun t => !t.done) := by rw [hl]; simp
    have hb : b ∈ st.tasks.filter (fun t => !t.done) := by rw [hl]; simp
    rw [List.mem_filter] at ha hb
    have ha2 : a.done = false := by simpa using ha.2
    have hb2 : b.done = false := by simpa using hb.2
    have hca := h1 a ha.1 ha2
    have hcb := h1 b hb.1 hb2
    rw [hca] at hcb
    exact hab (Option.some_injective _ hcb)

theorem cancelCur_done {st : ClientState} (h : Inv st) :
    ∀ t ∈ (cancelCur st).tasks, t.done = true := by
  obtain ⟨h1, _, _⟩ := h
  intro t ht
  simp only [cancelCur, List.mem_map] at ht
  obtain ⟨s, hs, rfl⟩ := ht
  by_cases hc : st.cur = some s.id
  · simp [hc]
  · rw [if_neg hc]
    cases hd : s.done
    · exact absurd (h1 s hs hd) hc
    · rfl

theorem pendingCount_cancelCur {st : ClientState} (h : Inv st) :
    pendingCount (cancelCur st) = 0 := by
  unfold pendingCount
  rw [List.length_eq_zero, List.filter_eq_nil_iff]
  intro t ht
  simp [cancelCur_done h t ht]

theorem inv_cancelCur {st : ClientState} (h : Inv st) : Inv (cancelCur st) := by
  have hdone := cancelCur_done h
  obtain ⟨h1, h2, h3⟩ := h
  refine ⟨?_, ?_, ?_⟩
  · intro t ht hd
    rw [hdone t ht] at hd
    cases hd
  · intro t ht
    simp only [cancelCur, List.mem_map] at ht
    obtain ⟨s, hs, rfl⟩ := ht
    have := h2 s hs
    by_cases hc : st.cur = some s.id <;> simp [cancelCur, hc, this]
  · simp only [cancelCur]
    refine h3.map _ fun a b hab => ?_
    dsimp only
    split <;> split <;> simpa using hab

theorem schedule_fresh {st : ClientState} (h : Inv st) :
    Inv (createTask (cancelCur st)) ∧
    pendingCount (createTask (cancelCur st)) = 1 ∧
    (createTask (cancelCur st)).tasks.length = st.tasks.length + 1 := by
  have hdone := cancelCur_done h
  obtain ⟨g1, g2, g3⟩ := inv_cancelCur h
  have hfilter : (cancelCur st).tasks.filter (fun t => !t.done) = [] := by
    rw [List.filter_eq_nil_iff]
    intro t ht
    simp [hdone t ht]
  refine ⟨⟨?_, ?_, ?_⟩, ?_, ?_⟩
  · intro t ht hd
    simp only [createTask, List.mem_append, List.mem_singleton] at ht
    rcases ht with ht | rfl
    · rw [hdone t ht] at hd
      cases hd
    · rfl
  · intro t ht
    simp only [createTask, List.mem_append, List.mem_singleton] at ht
    rcases ht with ht | rfl
    · exact Nat.lt_succ_of_lt (g2 t ht)
    · exact Nat.lt_succ_self _
  · simp only [createTask]
    rw [List.pairwise_append]
    refine ⟨g3, by simp, ?_⟩
    intro a ha b hb
    simp only [List.mem_singleton] at hb
    subst hb
    exact Nat.ne_of_lt (g2 a ha)
  · simp only [pendingCount, createTask, List.filter_append, hfilter]
    rfl
  · simp only [createTask, List.length_append, cancelCur, List.length_map]
    rfl

theorem inv_schedule {st : ClientState} (h : Inv st) :
    Inv (schedule_reconnect st) := by
  unfold schedule_reconnect
  split
  · exact h
  · exact (schedule_fresh h).1

theorem inv_push {st : ClientState} {d : Snapshot} (h : Inv st) :
    Inv (push_state_to_listeners st d) :=
  inv_congr rfl rfl rfl h

theorem inv_force {st : ClientState} {f : Option Snapshot} (h : Inv st) :
    Inv (force_state_update st f) := by
  unfold force_state_update
  cases f
  · exact inv_push h
  · exact inv_push (inv_congr rfl rfl rfl h)

theorem inv_async_connect (env : ConnectEnv) {st : ClientState} (h : Inv st) :
    Inv (async_connect env st).1 := by
  unfold async_connect
  split
  · exact inv_cancelCur (inv_congr rfl rfl rfl h)
  · split
    · exact inv_cancelCur (inv_congr rfl rfl rfl
        (inv_force (inv_congr rfl rfl rfl h)))
    · exact inv_schedule (inv_force (inv_congr rfl rfl rfl h))

theorem inv_async_disconnect {st : ClientState} (h : Inv st) :
    Inv (async_disconnect st) :=
  inv_congr rfl rfl rfl (inv_cancelCur h)

theorem cancelCur_async_disconnect (st : ClientState) :
    cancelCur (async_disconnect st) = async_disconnect st := by
  unfold async_disconnect cancelCur
  dsimp only
  rw [List.map_map]
  congr 1
  apply List.map_congr_left
  intro a _
  by_cases h : st.cur = some a.id <;> simp [Function.comp, h]

/-- A second `async_disconnect` leaves the state unchanged: the channel
and session flags are already cleared and re-cancelling the (already
done) reconnect task has no effect. -/
theorem async_disconnect_idem (st : ClientState) :
    async_disconnect (async_disconnect st) = async_disconnect st :=
  calc async_disconnect (async_disconnect st)
      = { cancelCur (async_disconnect st) with
            sio := false, sioConnected := false,
            sessionOpen := false, connected := false } := rfl
    _ = { async_disconnect st with
            sio := false, sioConnected := false,
            sessionOpen := false, connected := false } := by
          rw [cancelCur_async_disconnect]
    _ = async_disconnect st := rfl

theorem inv_loop_iter (tid : Nat) (env : ConnectEnv) {st : ClientState}
    (h : Inv st) : Inv (reconnect_loop_iter tid env st) := by
  unfold reconnect_loop_iter
  split
  · exact h
  · split
    · exact inv_congr rfl rfl rfl (inv_async_connect env h)
    · exact inv_async_connect env h

theorem reach_inv {st : ClientState} (h : Reach st) : Inv st := by
  induction h with
  | init =>
    exact ⟨by simp [initState], by simp [initState], by simp [initState]⟩
  | connect env _ ih => exact inv_async_connect env ih
  | disconnect _ ih => exact inv_async_disconnect ih
  | drop _ ih => exact inv_congr rfl rfl rfl ih
  | stateUpdate d _ ih => exact inv_push (inv_congr rfl rfl rfl ih)
  | subscribe cb _ ih =>
    unfold add_listener
    split
    · exact ih
    · exact inv_push (inv_congr rfl rfl rfl ih)
  | unsubscribe cb _ ih =>
    unfold remove_listener
    split
    · exact inv_congr rfl rfl rfl ih
    · exact ih
  | loopIter tid env _ ih => exact inv_loop_iter tid env ih

/-! ## Listener fan-out accounting -/

theorem add_listener_mem {cb : Nat} {st : ClientState} (h : cb ∈ st.listeners) :
    add_listener cb st = st := by
  unfold add_listener
  rw [if_pos h]

theorem delivered_push (cb : Nat) (st : ClientState) (d : Snapshot) :
    deliveredCount cb (push_state_to_listeners st d) =
      deliveredCount cb st + st.listeners.count cb := by
  unfold deliveredCount push_state_to_listeners
  rw [List.filter_append, List.length_append]
  congr 1
  rw [List.filter_map, List.length_map, List.count, List.countP_eq_length_filter]
  rfl

theorem delivered_on_state_update (cb : Nat) (d : Snapshot) (st : ClientState) :
    deliveredCount cb (on_state_update d st) =
      deliveredCount cb st + st.listeners.count cb := by
  unfold on_state_update
  rw [delivered_push]
  rfl

/-! ## Concrete scenario states -/

/-- The environment of a connect attempt against an unreachable server:
the HTTP state fetch raises and the socket.io handshake fails. -/
def badEnv : ConnectEnv := ⟨none, false⟩

/-- The environment of a successful connect: the state fetch returns a
snapshot and the handshake succeeds. -/
def goodEnv : ConnectEnv := ⟨some [("player", "playing")], true⟩

/-- The client state after a first `async_connect` against an unreachable
server. -/
def failedSt : ClientState := (async_connect badEnv initState).1

/-- The client state after a successful first `async_connect`. -/
def connectedSt : ClientState := (async_connect goodEnv initState).1

/-- A freshly constructed client with one registered listener
(callback 7). -/
def demoState : ClientState := add_listener 7 initState

/-- A poll-outcome stream whose first poll raises `YTMDAuthError` and
whose later polls return a token. -/
def c2steps : Nat → PollStep := fun i =>
  if i = 0 then .authErr else .ok [("token", "tok123")]

/-! ## Poll-loop bounds -/

theorem poll_go_snd_succ (steps : Nat → PollStep) (f i e : Nat)
    (he : e < APPROVAL_TIMEOUT) :
    (poll_go steps (f + 1) i e).2 ≤
      (poll_go steps f (i + 1) (e + RETRY_INTERVAL)).2 + 1 := by
  simp only [poll_go, if_pos he]
  split
  · split
    · simp
    · exact Nat.le_refl _
  · exact Nat.le_refl _
  · exact Nat.le_refl _
  · exact Nat.le_refl _

theorem poll_go_polls_le (steps : Nat → PollStep) :
    ∀ (k fuel i elapsed : Nat),
      APPROVAL_TIMEOUT ≤ elapsed + RETRY_INTERVAL * k →
      (poll_go steps fuel i elapsed).2 ≤ k := by
  intro k
  induction k with
  | zero =>
    intro fuel i e h
    rw [poll_go_elapsed steps fuel i e (by simpa using h)]
  | succ k ih =>
    intro fuel i e h
    by_cases he : e < APPROVAL_TIMEOUT
    · cases fuel with
      | zero => simp [poll_go]
      | succ f =>
        have hrec := ih f (i + 1) (e + RETRY_INTERVAL)
          (by simp only [RETRY_INTERVAL] at h ⊢; omega)
        have hstep := poll_go_snd_succ steps f i e he
        omega
    · rw [poll_go_elapsed steps fuel i e (by omega)]
      simp

/-! ## The claims -/

/-- C1 (counterexample): with the server unreachable at the very first
explicit `connect()` (the state fetch raises, the handshake fails), it is
not the case that `async_connect` raises to its caller and leaves no
reconnect scheduled: the call returns `none` as its surfaced exception
and a reconnect task is pending. -/
theorem C1_claim_counterexample :
    ¬ ((async_connect badEnv initState).2 ≠ none ∧
       (async_connect badEnv initState).1.snapshot = [] ∧
       pendingCount (async_connect badEnv initState).1 = 0) := by
  decide

/-- C1 (amended): if the server is unreachable on the very first explicit
`connect()` call, `async_connect` returns normally — it surfaces no
exception to its caller (the `ConnectionError` is caught internally) —
the cached snapshot remains empty, and exactly one reconnect task is
scheduled by this failure path. -/
theorem C1_amended_thm :
    (async_connect badEnv initState).2 = none ∧
    (async_connect badEnv initState).1.snapshot = [] ∧
    pendingCount (async_connect badEnv initState).1 = 1 :=
  ⟨rfl, rfl, rfl⟩

/-- C2 (counterexample): an `AuthorizationError` (`YTMDAuthError`) on the
first poll does not stop the pairing poll loop: with a stream that raises
an auth error at poll 0 and returns a token at poll 1, the loop performs
a second poll and even succeeds, instead of failing immediately after
one poll. -/
theorem C2_claim_counterexample :
    c2steps 0 = PollStep.authErr ∧
    poll_for_token c2steps = (PollResult.success "tok123", 2) ∧
    (poll_for_token c2steps).2 ≠ 1 := by
  decide

/-- C2 (amended): an `AuthorizationError` raised by a poll of the
pairing-code exchange is treated exactly like the transient
request-failed/transport/not-yet-approved outcomes: it is swallowed
(`except Exception`) and the loop keeps polling; the flow never aborts
early on an auth error. -/
theorem C2_amended_thm (steps : Nat → PollStep) (fuel i elapsed : Nat)
    (h1 : elapsed < APPROVAL_TIMEOUT) (h2 : steps i = PollStep.authErr) :
    poll_go steps (fuel + 1) i elapsed =
      ((poll_go steps fuel (i + 1) (elapsed + RETRY_INTERVAL)).1,
        (poll_go steps fuel (i + 1) (elapsed + RETRY_INTERVAL)).2 + 1) := by
  simp only [poll_go, if_pos h1, h2]

/-- C2 (witness): the amended theorem applied to the concrete stream that
raises an auth error on poll 0. -/
theorem C2_amended_witness :
    poll_go c2steps (59 + 1) 0 0 =
      ((poll_go c2steps 59 (0 + 1) (0 + RETRY_INTERVAL)).1,
        (poll_go c2steps 59 (0 + 1) (0 + RETRY_INTERVAL)).2 + 1) :=
  C2_amended_thm c2steps 59 0 0 (by decide) (by decide)

/-- C3: after `async_disconnect` returns, no reconnect task is pending in
any reachable state: the pending reconnect (if any) is cancelled, the
channel is dropped, the HTTP session is closed and `_connected` is
cleared without scheduling a retry — the `disconnect` event handler,
being bound to namespace `'/'`, never fires during the explicit
disconnect.  A second `async_disconnect` (or one issued while no channel
exists) leaves the state unchanged, and no path raises. -/
theorem C3_thm {st : ClientState} (h : Reach st) :
    pendingCount (async_disconnect st) = 0 ∧
    (async_disconnect st).connected = false ∧
    (async_disconnect st).sio = false ∧
    (async_disconnect st).sioConnected = false ∧
    (async_disconnect st).sessionOpen = false ∧
    async_disconnect (async_disconnect st) = async_disconnect st := by
  refine ⟨?_, rfl, rfl, rfl, rfl, async_disconnect_idem st⟩
  exact pendingCount_cancelCur (reach_inv h)

/-- C3 (witness): the theorem applied to the reachable state after a
successful connect — tearing down an established channel leaves nothing
pending and a second teardown is a no-op. -/
theorem C3_witness :
    pendingCount (async_disconnect connectedSt) = 0 ∧
    (async_disconnect connectedSt).connected = false ∧
    (async_disconnect connectedSt).sio = false ∧
    (async_disconnect connectedSt).sioConnected = false ∧
    (async_disconnect connectedSt).sessionOpen = false ∧
    async_disconnect (async_disconnect connectedSt) = async_disconnect connectedSt :=
  C3_thm (Reach.connect goodEnv Reach.init)

/-- C4 (counterexample): scheduling a reconnect while one is already
pending is not a no-op: from the post-failure state (one pending task),
`_schedule_reconnect` cancels the pending task and creates a fresh one,
changing the state. -/
theorem C4_claim_counterexample :
    pendingCount failedSt = 1 ∧ schedule_reconnect failedSt ≠ failedSt := by
  decide

/-- C4 (amended): in every reachable client state at most one reconnect
task is pending; scheduling a reconnect while disconnected cancels any
pending task and creates exactly one replacement (a fresh task, not a
no-op), so a single connection attempt remains outstanding. -/
theorem C4_amended_thm {st : ClientState} (h : Reach st) :
    pendingCount st ≤ 1 ∧
    (st.connected = false →
      pendingCount (schedule_reconnect st) = 1 ∧
      (schedule_reconnect st).tasks.length = st.tasks.length + 1) := by
  have hinv := reach_inv h
  refine ⟨pending_le_one hinv, fun hc => ?_⟩
  unfold schedule_reconnect
  rw [if_neg (by simp [hc])]
  exact ⟨(schedule_fresh hinv).2.1, (schedule_fresh hinv).2.2⟩

/-- C4 (witness): the amended theorem applied to the reachable state
after a failed first connect. -/
theorem C4_amended_witness :
    pendingCount failedSt ≤ 1 ∧
    (failedSt.connected = false →
      pendingCount (schedule_reconnect failedSt) = 1 ∧
      (schedule_reconnect failedSt).tasks.length = failedSt.tasks.length + 1) :=
  C4_amended_thm (Reach.connect badEnv Reach.init)

/-- C5 (code bug): the reconnect backoff never doubles.  After a failed
first connect the pending reconnect task is task 0; when that task runs
the loop body, `async_connect` itself cancels it (every branch of
`async_connect` cancels the current `_reconnect_task`), so the task is
dead before its `asyncio.sleep` and the doubling statement
`self._reconnect_delay = min(self._reconnect_delay * 2, 300)` never
executes: the delay is still 1 after the first and second failed loop
iterations (run by task 0 and its replacement task 1), instead of 2 and
then 4. -/
theorem C5_bug_thm :
    initState.reconnectDelay = 1 ∧
    failedSt.reconnectDelay = 1 ∧
    failedSt.cur = some 0 ∧
    taskAlive 0 failedSt = true ∧
    taskAlive 0 (async_connect badEnv failedSt).1 = false ∧
    (reconnect_loop_iter 0 badEnv failedSt).reconnectDelay = 1 ∧
    (reconnect_loop_iter 0 badEnv failedSt).cur = some 1 ∧
    (reconnect_loop_iter 1 badEnv
      (reconnect_loop_iter 0 badEnv failedSt)).reconnectDelay = 1 := by
  decide

/-- C6 (counterexample): HTTP 429 does not raise a dedicated
rate-limit class: it raises `YTMDConnectionError`, the same class raised
for a generic 500 failure and for a transport failure — the taxonomy has
only two distinguishable classes, not four. -/
theorem C6_claim_counterexample :
    handle_request_error 429 "u" =
      some (.YTMDConnectionError
        "Request failed to u with status 429 (Too Many Requests).") ∧
    handle_request_error 500 "u" =
      some (.YTMDConnectionError "Request failed to u with status 500.") ∧
    async_get_state "h" 1 (.transportFail "refused") =
      .error (.YTMDConnectionError
        "Connection error to http://h:1/api/v1/state: refused") := by
  exact ⟨rfl, rfl, rfl⟩

/-- C6 (amended): the request layer surfaces a two-way error taxonomy:
an HTTP 401 raises `YTMDAuthError`; every other status `>= 400`
(including 429, which differs only in message text) raises
`YTMDConnectionError`; statuses below 400 raise nothing; and
connection-refused/DNS/timeout failures raise `YTMDConnectionError` as
well.  The two classes are mutually distinguishable; there is no separate
rate-limit or generic-failure class. -/
theorem C6_amended_thm (status : Nat) (url host m : String) (port : Nat)
    (h1 : 400 ≤ status) (h2 : status ≠ 401) :
    (∃ msg, handle_request_error status url =
      some (.YTMDConnectionError msg)) ∧
    handle_request_error 401 url =
      some (.YTMDAuthError
        ("Authorization failed for " ++ url ++ ". Check token.")) ∧
    (∀ s, s < 400 → handle_request_error s url = none) ∧
    (∃ msg, async_post_command host port (.transportFail m) =
      .error (.YTMDConnectionError msg)) := by
  refine ⟨?_, rfl, ?_, ⟨_, rfl⟩⟩
  · unfold handle_request_error
    rw [if_neg h2]
    by_cases h3 : status = 429
    · rw [if_pos h3]
      exact ⟨_, rfl⟩
    · rw [if_neg h3, if_pos h1]
      exact ⟨_, rfl⟩
  · intro s hs
    unfold handle_request_error
    split_ifs with a b c
    · exact absurd hs (by omega)
    · exact absurd hs (by omega)
    · exact absurd hs (by omega)
    · rfl

/-- C6 (witness): the amended theorem applied at status 429. -/
theorem C6_amended_witness :
    (∃ msg, handle_request_error 429 "u" =
      some (.YTMDConnectionError msg)) ∧
    handle_request_error 401 "u" =
      some (.YTMDAuthError
        ("Authorization failed for " ++ "u" ++ ". Check token.")) ∧
    (∀ s, s < 400 → handle_request_error s "u" = none) ∧
    (∃ msg, async_post_command "h" 1 (.transportFail "refused") =
      .error (.YTMDConnectionError msg)) :=
  C6_amended_thm 429 "u" "h" "refused" 1 (by decide) (by decide)

/-- C7: the pairing poll loop always terminates: for every stream of poll
outcomes it performs at most 20 polls (the 60-second budget at the fixed
3-second interval) and ends either in success with a returned token or
in the timeout abort; it never retries indefinitely. -/
theorem C7_thm (steps : Nat → PollStep) :
    (poll_for_token steps).2 ≤ 20 ∧
    ((∃ t, (poll_for_token steps).1 = PollResult.success t) ∨
      (poll_for_token steps).1 = PollResult.timeout) := by
  constructor
  · exact poll_go_polls_le steps 20 APPROVAL_TIMEOUT 0 0
      (by simp [APPROVAL_TIMEOUT, RETRY_INTERVAL])
  · cases h : (poll_for_token steps).1 with
    | success t => exact Or.inl ⟨t, rfl⟩
    | timeout => exact Or.inr rfl

/-- C8: subscription is idempotent and unsubscription of a non-member is
a no-op: adding the same callback twice registers it exactly once (the
second `add_listener` is a complete no-op), two subsequent state
publications deliver to it exactly twice, and removing an unregistered
callback leaves the state unchanged. -/
theorem C8_thm (st : ClientState) (cb : Nat) (d1 d2 : Snapshot)
    (h : cb ∉ st.listeners) :
    add_listener cb (add_listener cb st) = add_listener cb st ∧
    (add_listener cb st).listeners.count cb = 1 ∧
    deliveredCount cb (on_state_update d2 (on_state_update d1 (add_listener cb st)))
      = deliveredCount cb (add_listener cb st) + 2 ∧
    (∀ cb2, cb2 ∉ st.listeners → remove_listener cb2 st = st) := by
  have hmem : cb ∈ (add_listener cb st).listeners := by
    unfold add_listener
    rw [if_neg h]
    simp [push_state_to_listeners]
  have hcount : (add_listener cb st).listeners.count cb = 1 := by
    unfold add_listener
    rw [if_neg h]
    show (st.listeners ++ [cb]).count cb = 1
    rw [List.count_append, List.count_eq_zero.mpr h]
    simp
  refine ⟨add_listener_mem hmem, hcount, ?_, ?_⟩
  · rw [delivered_on_state_update, delivered_on_state_update]
    have hl : (on_state_update d1 (add_listener cb st)).listeners.count cb = 1 :=
      hcount
    rw [hl, hcount]
  · intro cb2 h2
    unfold remove_listener
    rw [if_neg h2]

/-- C8 (witness): the theorem applied to a client with listener 7 and the
fresh callback 5. -/
theorem C8_witness :
    add_listener 5 (add_listener 5 demoState) = add_listener 5 demoState ∧
    (add_listener 5 demoState).listeners.count 5 = 1 ∧
    deliveredCount 5 (on_state_update [("a", "2")]
        (on_state_update [("a", "1")] (add_listener 5 demoState)))
      = deliveredCount 5 (add_listener 5 demoState) + 2 ∧
    (∀ cb2, cb2 ∉ demoState.listeners → remove_listener cb2 demoState = demoState) :=
  C8_thm demoState 5 [("a", "1")] [("a", "2")] (by decide)

/-- C9: registering a new callback replays the cached snapshot to every
currently registered listener, not only to the new one: the deliveries
appended by `add_listener` are one `(l, snapshot)` entry for each
listener in the updated list, so each pre-existing listener receives
exactly one extra delivery, as does the new callback. -/
theorem C9_thm (st : ClientState) (cb d : Nat) (hnd : st.listeners.Nodup)
    (hcb : cb ∉ st.listeners) (hd : d ∈ st.listeners) :
    (add_listener cb st).deliveries
      = st.deliveries ++ (st.listeners ++ [cb]).map (fun l => (l, st.snapshot)) ∧
    deliveredCount d (add_listener cb st) = deliveredCount d st + 1 ∧
    deliveredCount cb (add_listener cb st) = deliveredCount cb st + 1 := by
  have hne : d ≠ cb := fun he => hcb (he ▸ hd)
  refine ⟨?_, ?_, ?_⟩
  · unfold add_listener
    rw [if_neg hcb]
    rfl
  · unfold add_listener
    rw [if_neg hcb]
    rw [delivered_push]
    show deliveredCount d st + (st.listeners ++ [cb]).count d
      = deliveredCount d st + 1
    rw [List.count_append, List.count_eq_one_of_mem hnd hd,
      List.count_eq_zero.mpr (by simp [hne])]
  · unfold add_listener
    rw [if_neg hcb]
    rw [delivered_push]
    show deliveredCount cb st + (st.listeners ++ [cb]).count cb
      = deliveredCount cb st + 1
    rw [List.count_append, List.count_eq_zero.mpr hcb]
    simp

/-- C9 (witness): the theorem applied to a client with pre-existing
listener 7 and new callback 5: listener 7 receives one extra delivery of
the cached snapshot. -/
theorem C9_witness :
    (add_listener 5 demoState).deliveries
      = demoState.deliveries
          ++ (demoState.listeners ++ [5]).map (fun l => (l, demoState.snapshot)) ∧
    deliveredCount 7 (add_listener 5 demoState) = deliveredCount 7 demoState + 1 ∧
    deliveredCount 5 (add_listener 5 demoState) = deliveredCount 5 demoState + 1 :=
  C9_thm demoState 5 7 (by decide) (by decide) (by decide)

/-- C10: the request-layer status check raises if and only if the status
is at least 400 — every status below 400 (including 3xx) passes — and
each of the four request operations returns the parsed body on such a
response, with `async_post_command` turning a 204 into the synthetic
success value. -/
theorem C10_thm :
    (∀ status url, (handle_request_error status url).isSome ↔ 400 ≤ status) ∧
    (∀ (host : String) (port status : Nat) (body : Snapshot), status < 400 →
      async_request_code host port (.response status body) = .ok body ∧
      async_request_token host port (.response status body) = .ok body ∧
      async_get_state host port (.response status body) = .ok body ∧
      async_post_command host port (.response status body) =
        .ok (if status = 204 then [("status", "success")] else body)) := by
  have hnone : ∀ status url, status < 400 →
      handle_request_error status url = none := by
    intro s u hs
    unfold handle_request_error
    split_ifs with a b c
    · exact absurd hs (by omega)
    · exact absurd hs (by omega)
    · exact absurd hs (by omega)
    · rfl
  constructor
  · intro s u
    unfold handle_request_error
    split_ifs with a b c <;> simp <;> omega
  · intro host port s body hs
    refine ⟨?_, ?_, ?_, ?_⟩ <;>
      simp only [async_request_code, async_request_token, async_get_state,
        async_post_command, hnone _ _ hs]
    split <;> rfl

/-- C10 (witness): a 204 command response yields the synthetic success
value and a 302 state response is treated as success. -/
theorem C10_witness :
    async_post_command "h" 1 (.response 204 []) = .ok [("status", "success")] ∧
    async_get_state "h" 1 (.response 302 [("a", "b")]) = .ok [("a", "b")] := by
  constructor
  · have h := (C10_thm.2 "h" 1 204 [] (by omega)).2.2.2
    simpa using h
  · exact (C10_thm.2 "h" 1 302 [("a", "b")] (by omega)).2.2.1

end YTMD
